import Mathlib

/-!
Verification of the TTS repository against its specification.

The development shallowly embeds the caller-side generation functions of the
Gradio web UIs (`run_final_working_webui.py`, `run_simple_working_webui.py`,
`run_fixed_tts_webui.py`, `run_simple_webui.py`) and the External TTS Client
(`streamlit_app.py`, `streamlit_fish_speech.py`).

Modelling conventions:
- Byte strings (audio payloads, base64 text) are opaque `String`s; the base64
  transport encoding is irrelevant to every property proved here, so `to_b64`
  and `b64decode` are modelled as identities on those opaque strings.
- Python floats that are only carried through (temperature, top_p,
  repetition_penalty, speech speed) are modelled as `Rat`; no caller performs
  arithmetic on them.
- The blocking `response_queue.get(timeout=...)` call is modelled by a poll
  event that either delivers a `WrappedGenerateResponse` or reports the
  `queue.Empty` timeout; an execution of the aggregation loop is a finite list
  of such poll outcomes.  `none` as a loop result means the trace ended while
  the loop was still polling, i.e. it does not correspond to a completed run.
- The worker behind `launch_thread_safe_queue` (from the external
  `fish_speech` package) tags each `WrappedGenerateResponse` with
  `status == "success"` or an error status carrying the exception text; the
  embedding represents this as a two-constructor sum.
-/

/-- Python truthiness of an optional string argument (`if s:`):
`None` and the empty string are falsy. -/
def truthy : Option String → Bool
  | some s => !s.isEmpty
  | none => false

/-- Python emptiness test `not text.strip()`: stripping leading and trailing
whitespace leaves the empty string exactly when every character is
whitespace, so the test holds iff the text is empty or whitespace-only. -/
def isBlank (s : String) : Bool := s.data.all (fun c => c.isWhitespace)

/-! ## External TTS Client (`streamlit_app.py`) -/

/-- The request-schema variant of one outgoing HTTP request built by
`call_tts`: the plain JSON request used when no cloning reference is supplied,
the three cloning variants tried in order otherwise. -/
inductive Schema
  | plainJson
  | jsonReferences
  | jsonLegacy
  | multipart
deriving DecidableEq, Repr

/-- One outgoing request to the TTS provider, with every payload field that
`call_tts` populates.  `references` is the attempt-1 `references` array entry
(audio b64, transcript); `reference_audio`/`reference_text` are the attempt-2
JSON fields, reused for the attempt-3 multipart file and form field. -/
structure TTSRequestOut where
  schema : Schema
  text : String
  model : String
  speech_speed : Rat
  format : String
  latency : String
  voice_id : Option String
  references : Option (String × String)
  reference_audio : Option String
  reference_text : Option String
deriving DecidableEq, Repr

/-- A provider HTTP response: status code, body as bytes (`r.content`) and
body as text (`r.text`). -/
structure HTTPResp where
  status : Nat
  content : String
  text : String
deriving DecidableEq, Repr

/-- Base64 encoding of opaque audio bytes (`to_b64` in `streamlit_app.py`),
abstracted as the identity on opaque byte strings. -/
def to_b64 (data : String) : String := data

/-- Base64 decoding (`base64.b64decode` in attempt 3), abstracted as the
identity on opaque byte strings, inverse to `to_b64`. -/
def b64decode (s : String) : String := s

/-- The plain JSON payload (`payload` in `call_tts` after the `latency`
default is set): carries `voice_id` only when the argument is truthy, and no
cloning reference. -/
def base_payload (text model : String) (speed : Rat) (voice_id : Option String) :
    TTSRequestOut :=
  { schema := Schema.plainJson
    text := text
    model := model
    speech_speed := speed
    format := "wav"
    latency := "normal"
    voice_id := if truthy voice_id then voice_id else none
    references := none
    reference_audio := none
    reference_text := none }

/-- Attempt 1 (`primary_payload`): JSON with a `references` array; `voice_id`
is popped from the payload. -/
def attempt1 (text model : String) (speed : Rat) (a t : String) : TTSRequestOut :=
  { schema := Schema.jsonReferences
    text := text
    model := model
    speech_speed := speed
    format := "wav"
    latency := "normal"
    voice_id := none
    references := some (a, t)
    reference_audio := none
    reference_text := none }

/-- Attempt 2 (`fallback_payload`): legacy JSON with separate
`reference_audio` and `reference_text` fields; `voice_id` is popped. -/
def attempt2 (text model : String) (speed : Rat) (a t : String) : TTSRequestOut :=
  { schema := Schema.jsonLegacy
    text := text
    model := model
    speech_speed := speed
    format := "wav"
    latency := "normal"
    voice_id := none
    references := none
    reference_audio := some a
    reference_text := some t }

/-- Attempt 3: multipart/form-data with the decoded raw audio file; the form
fields include `voice_id` when the argument is truthy. -/
def attempt3 (text model : String) (speed : Rat) (voice_id : Option String)
    (a t : String) : TTSRequestOut :=
  { schema := Schema.multipart
    text := text
    model := model
    speech_speed := speed
    format := "wav"
    latency := "normal"
    voice_id := if truthy voice_id then voice_id else none
    references := none
    reference_audio := some (b64decode a)
    reference_text := some t }

/-- The final status check of `call_tts` (line 81): HTTP 200 yields the audio
bytes with an empty error message, anything else yields no audio and the
message `API status: text` built from that response. -/
def finishResp (r : HTTPResp) (made : List TTSRequestOut) :
    (Option String × String) × List TTSRequestOut :=
  if r.status = 200 then ((some r.content, ""), made)
  else ((none, "API " ++ toString r.status ++ ": " ++ r.text), made)

/-- The `else` branch of `call_tts` (line 80): a single plain JSON request
when no cloning reference is supplied. -/
def call_tts_plain (provider : TTSRequestOut → HTTPResp)
    (text model : String) (speed : Rat) (voice_id : Option String) :
    (Option String × String) × List TTSRequestOut :=
  let q0 := base_payload text model speed voice_id
  finishResp (provider q0) [q0]

/-- The cloning branch of `call_tts` (lines 48-76): attempt 1 is the
`references` array JSON, attempt 2 the legacy JSON fields, attempt 3 the
multipart form; each later attempt is made only when the previous one did not
return HTTP 200. -/
def call_tts_cloning (provider : TTSRequestOut → HTTPResp)
    (text model : String) (speed : Rat) (voice_id : Option String)
    (a t : String) : (Option String × String) × List TTSRequestOut :=
  let q1 := attempt1 text model speed a t
  let r1 := provider q1
  if r1.status = 200 then finishResp r1 [q1]
  else
    let q2 := attempt2 text model speed a t
    let r2 := provider q2
    if r2.status = 200 then finishResp r2 [q1, q2]
    else
      let q3 := attempt3 text model speed voice_id a t
      finishResp (provider q3) [q1, q2, q3]

/-- Shallow embedding of `call_tts` (`streamlit_app.py` lines 22-85).  The
provider is an oracle mapping each outgoing request to its HTTP response; the
result pairs the returned `(audio, message)` with the ordered list of HTTP
requests actually made.  The `except Exception: pass` guarding attempt 3 only
matters when base64 decoding fails, which the opaque-bytes abstraction makes
impossible, so attempt 3 always reaches the provider here. -/
def call_tts (provider : TTSRequestOut → HTTPResp)
    (api_key text model : String) (speed : Rat)
    (voice_id ref_audio_b64 ref_text : Option String) :
    (Option String × String) × List TTSRequestOut :=
  if api_key.isEmpty then ((none, "Missing API key"), [])
  else if isBlank text then ((none, "Enter text"), [])
  else
    match ref_audio_b64, ref_text with
    | some a, some t =>
      if a.isEmpty || t.isEmpty then call_tts_plain provider text model speed voice_id
      else call_tts_cloning provider text model speed voice_id a t
    | _, _ => call_tts_plain provider text model speed voice_id

/-- A request payload carries a populated voice-preset identifier. -/
def hasVoiceId (r : TTSRequestOut) : Bool := r.voice_id.isSome

/-- A request payload carries a populated cloning reference, in either the
`references` array form or the separate-field/file form. -/
def hasCloningRef (r : TTSRequestOut) : Bool :=
  r.references.isSome || r.reference_audio.isSome

/-! ## Upload size gate in `ui()` (`streamlit_app.py` lines 244-313)

The Generate click handler in Reference-tape mode with the Fish Cloud backend
and no SDK installed: reference audio bytes are size-checked before being
base64-encoded and handed to `call_tts`. -/

/-- The Reference-tape generation path of `ui()`: reject reference audio
larger than 10 MB before any request is built, otherwise call `call_tts` with
the encoded reference and no voice id. -/
def ui_reference_generate (provider : TTSRequestOut → HTTPResp)
    (api_key model : String) (speed : Rat)
    (text refData refText : String) :
    (Option String × String) × List TTSRequestOut :=
  if refData.length > 10 * 1024 * 1024 then
    ((none, "Audio too large (max 10MB)"), [])
  else
    call_tts provider api_key text model speed none (some (to_b64 refData)) (some refText)

/-! ## `validate_audio_file` (`streamlit_fish_speech.py` lines 78-92) -/

/-- A Streamlit uploaded file as `validate_audio_file` inspects it. -/
structure UploadedFile where
  type : String
  size : Nat
deriving DecidableEq, Repr

/-- The accepted MIME types (`valid_types`). -/
def valid_types : List String :=
  ["audio/wav", "audio/mp3", "audio/mpeg", "audio/flac", "audio/ogg"]

/-- The maximum accepted upload size (`max_size = 10 * 1024 * 1024`). -/
def max_size : Nat := 10 * 1024 * 1024

/-- Shallow embedding of `validate_audio_file`. -/
def validate_audio_file : Option UploadedFile → Bool × String
  | none => (true, "")
  | some f =>
    if !(valid_types.contains f.type) then
      (false, "Please select a valid audio file (WAV, MP3, FLAC, OGG)")
    else if f.size > max_size then
      (false, "Audio file is too large. Please select a file smaller than 10MB")
    else (true, "")

/-! ## `run_final_working_webui.py` — `generate_speech_with_voice`

Namespace `FinalWorking` embeds the caller of `run_final_working_webui.py`:
language and voice-style lookup, the pre-enqueue validation, the aggregation
loop over `response_queue.get(timeout=60)` and the post-loop finalisation. -/

namespace FinalWorking

/-- The `LANGUAGES` table: language code paired with display label. -/
def LANGUAGES : List (String × String) :=
  [("auto", "🌍 Auto-detect"), ("en", "🇺🇸 English"), ("zh", "🇨🇳 Mandarin Chinese"),
   ("ja", "🇯🇵 Japanese"), ("ko", "🇰🇷 Korean"), ("fr", "🇫🇷 French"),
   ("de", "🇩🇪 German"), ("es", "🇪🇸 Spanish"), ("ar", "🇸🇦 Arabic"),
   ("ru", "🇷🇺 Russian"), ("it", "🇮🇹 Italian"), ("pt", "🇵🇹 Portuguese"),
   ("nl", "🇳🇱 Dutch")]

/-- One `VOICE_STYLES` entry: display name, prompt prefix, description. -/
structure VoiceStyle where
  name : String
  prompt : String
  description : String
deriving DecidableEq, Repr

/-- The `VOICE_STYLES` table keyed by style key. -/
def VOICE_STYLES : List (String × VoiceStyle) :=
  [("neutral", ⟨"🎭 Neutral", "", "Natural, balanced voice"⟩),
   ("broadcaster", ⟨"📻 播音 (Broadcaster)", "[播音]", "Professional news broadcaster style"⟩),
   ("storyteller", ⟨"📚 Storyteller", "[故事]", "Engaging narrative voice"⟩),
   ("friendly", ⟨"😊 Friendly", "[友善]", "Warm, approachable tone"⟩),
   ("professional", ⟨"💼 Professional", "[专业]", "Business, formal tone"⟩),
   ("energetic", ⟨"⚡ Energetic", "[活力]", "Dynamic, enthusiastic"⟩),
   ("calm", ⟨"😌 Calm", "[平静]", "Soothing, relaxed tone"⟩),
   ("cheerful", ⟨"🌟 Cheerful", "[开朗]", "Happy, upbeat voice"⟩)]

/-- `get_language_code`: display label back to code, defaulting to "auto". -/
def get_language_code (language_display : String) : String :=
  match LANGUAGES.find? (fun p => p.2 == language_display) with
  | some p => p.1
  | none => "auto"

/-- `get_voice_style_key`: display name back to style key, defaulting to
"neutral". -/
def get_voice_style_key (voice_display : String) : String :=
  match VOICE_STYLES.find? (fun p => p.2.name == voice_display) with
  | some p => p.1
  | none => "neutral"

/-- Lookup `VOICE_STYLES[voice_key]`; `get_voice_style_key` always returns a
key of the table, so the default branch is unreachable on the code path. -/
def voice_style_of_key (voice_key : String) : VoiceStyle :=
  match VOICE_STYLES.find? (fun p => p.1 == voice_key) with
  | some p => p.2
  | none => ⟨"🎭 Neutral", "", "Natural, balanced voice"⟩

/-- The `request_data` dict sent to the model queue (lines 185-195). -/
structure RequestData where
  text : String
  device : String
  max_new_tokens : Int
  top_p : Rat
  repetition_penalty : Rat
  temperature : Rat
  chunk_length : Nat
  num_samples : Nat
  iterative_prompt : Bool
deriving DecidableEq, Repr

/-- The `GenerateResponse` payload of a successful event: the continuation
tag `action` and the generated codes, with the tensor-to-flat-token-list
conversion (`cpu().numpy()`, optional `flatten()`, `tolist()`) abstracted to
the resulting token list. -/
structure GenerateResponse where
  action : String
  codes : Option (List Int)
deriving DecidableEq, Repr

/-- A `WrappedGenerateResponse` as the worker interface delivers it: the
`status == "success"` branch carries an optional `GenerateResponse`, any
other status carries the worker-side error text that the caller interpolates
into its failure message. -/
inductive WrappedGenerateResponse
  | success (response : Option GenerateResponse)
  | error (message : String)
deriving DecidableEq, Repr

/-- One outcome of `response_queue.get(timeout=60)`: an event, or the
`queue.Empty` timeout. -/
inductive Poll
  | timeout
  | recv (w : WrappedGenerateResponse)
deriving DecidableEq, Repr

/-- The configured poll timeout: `response_queue.get(timeout=60)`, line 214. -/
def poll_timeout : Nat := 60

/-- Failure message when the model queue was never initialised (line 162). -/
def model_not_loaded_msg : String :=
  "❌ Model not loaded. Please restart the application."

/-- Failure message for blank input text (line 165). -/
def empty_text_msg : String :=
  "❌ Please enter some text to generate speech."

/-- Failure message for an explicit error event (line 238), interpolating the
error payload. -/
def failed_msg (m : String) : String := "❌ Generation failed: " ++ m

/-- Failure message when `queue.Empty` is raised by the 60-second poll
(line 241). -/
def timeout_msg : String :=
  "❌ Generation timed out after 60 seconds. Please try again with shorter text."

/-- Failure message for an empty accumulated token buffer after the loop
(line 244). -/
def no_tokens_msg : String :=
  "❌ No semantic tokens generated. Please try again."

/-- How the `while True` aggregation loop ends: a `break` with the
accumulated tokens, or an early `return` with a caller-visible result. -/
inductive LoopExit
  | tokens (acc : List Int)
  | failed (result : Option String × String)
deriving DecidableEq, Repr

/-- The aggregation loop (lines 212-241).  Per event: an error event returns
the failure message; a success event with no payload breaks; a success event
with a payload extends the buffer with its codes, breaks when
`action == "sample"`, and keeps polling otherwise (`action == "next"` and any
other tag both continue the loop); a `queue.Empty` timeout returns the
timeout failure.  `none` means the poll trace ended while still looping. -/
def recv_loop (acc : List Int) : List Poll → Option LoopExit
  | [] => none
  | Poll.timeout :: _ => some (LoopExit.failed (none, timeout_msg))
  | Poll.recv (WrappedGenerateResponse.error m) :: _ =>
    some (LoopExit.failed (none, failed_msg m))
  | Poll.recv (WrappedGenerateResponse.success none) :: _ =>
    some (LoopExit.tokens acc)
  | Poll.recv (WrappedGenerateResponse.success (some g)) :: rest =>
    let acc2 := match g.codes with
      | some cs => acc ++ cs
      | none => acc
    if g.action == "sample" then some (LoopExit.tokens acc2)
    else recv_loop acc2 rest

/-- Pre-enqueue stage of `generate_speech_with_voice` (lines 149-207): the
model-loaded and blank-text checks, then the construction of the
`request_data` dict that `model_queue.put` receives; `Except.error` carries
the early-returned caller result. -/
def generate_speech_with_voice_pre (model_loaded : Bool) (device : String)
    (text language voice_style : String) (max_tokens : Int)
    (temperature top_p repetition_penalty : Rat) :
    Except (Option String × String) RequestData :=
  if !model_loaded then Except.error (none, model_not_loaded_msg)
  else if isBlank text then Except.error (none, empty_text_msg)
  else
    let voice_key := get_voice_style_key voice_style
    let voice_config := voice_style_of_key voice_key
    let final_text :=
      if voice_config.prompt.isEmpty then text else voice_config.prompt ++ text
    Except.ok
      { text := final_text
        device := device
        max_new_tokens := max_tokens
        top_p := top_p
        repetition_penalty := repetition_penalty
        temperature := temperature
        chunk_length := 200
        num_samples := 1
        iterative_prompt := true }

/-- The request handed to `model_queue.put`, if that call is reached. -/
def enqueued (model_loaded : Bool) (device : String)
    (text language voice_style : String) (max_tokens : Int)
    (temperature top_p repetition_penalty : Rat) : Option RequestData :=
  (generate_speech_with_voice_pre model_loaded device text language voice_style
    max_tokens temperature top_p repetition_penalty).toOption

/-- The success message (lines 259-269); `n` is the token count, `fileName`
the generated file name. -/
def success_msg (n : Nat) (language voice_style text : String)
    (voice_config : VoiceStyle) (fileName : String) : String :=
  "✅ Speech generation successful!\n\n📊 Generated: " ++ toString n ++
  " semantic tokens\n🌍 Language: " ++ language ++
  "\n🎭 Voice Style: " ++ voice_style ++
  "\n📝 Text: " ++ text.take 100 ++ (if text.length > 100 then "..." else "") ++
  "\n" ++ (if voice_config.prompt.isEmpty then ""
           else "🎤 Voice Prompt: " ++ voice_config.prompt) ++
  "\n\n📁 File saved: " ++ fileName ++
  "\n\n🎵 Your speech has been converted to semantic tokens using the " ++
  voice_config.description ++
  " style. These tokens represent the AI\x27s understanding of how your text should sound with the selected voice characteristics."

/-- Full embedding of `generate_speech_with_voice` (lines 149-275): the
pre-enqueue stage, the aggregation loop over the poll trace, and the
finalisation (empty buffer check, file naming with the fresh `uuid_hex`
modelling `uuid.uuid4().hex[:8]`, success message).  `none` means the poll
trace ended while the loop was still waiting, i.e. no completed run. -/
def generate_speech_with_voice (model_loaded : Bool) (device uuid_hex : String)
    (text language voice_style : String) (max_tokens : Int)
    (temperature top_p repetition_penalty : Rat) (polls : List Poll) :
    Option (Option String × String) :=
  match generate_speech_with_voice_pre model_loaded device text language
      voice_style max_tokens temperature top_p repetition_penalty with
  | Except.error r => some r
  | Except.ok _ =>
    match recv_loop [] polls with
    | none => none
    | some (LoopExit.failed r) => some r
    | some (LoopExit.tokens toks) =>
      if toks.isEmpty then some (none, no_tokens_msg)
      else
        let voice_key := get_voice_style_key voice_style
        let voice_config := voice_style_of_key voice_key
        let fileName := "speech_" ++ voice_key ++ "_" ++ uuid_hex ++ ".npy"
        some (some ("temp/" ++ fileName),
          success_msg toks.length language voice_style text voice_config fileName)

end FinalWorking

/-! ## `run_simple_working_webui.py` — `generate_speech` -/

namespace SimpleWorking

/-- The `request_data` dict sent to the model queue (lines 117-127). -/
structure RequestData where
  text : String
  device : String
  max_new_tokens : Int
  top_p : Rat
  repetition_penalty : Rat
  temperature : Rat
  chunk_length : Nat
  num_samples : Nat
  iterative_prompt : Bool
deriving DecidableEq, Repr

/-- A `WrappedGenerateResponse` as this caller consumes it: a success event
carries an optional token payload that is appended with
`all_tokens.extend(...)`, any other status carries the worker error text. -/
inductive WrappedGenerateResponse
  | success (response : Option (List Int))
  | error (message : String)
deriving DecidableEq, Repr

/-- One outcome of `response_queue.get(timeout=60)`. -/
inductive Poll
  | timeout
  | recv (w : WrappedGenerateResponse)
deriving DecidableEq, Repr

/-- The configured poll timeout: `response_queue.get(timeout=60)`, line 146. -/
def poll_timeout : Nat := 60

/-- Failure message when the model queue was never initialised (line 104). -/
def model_not_loaded_msg : String :=
  "❌ Model not loaded. Please restart the application."

/-- Failure message for blank input text (line 107). -/
def empty_text_msg : String :=
  "❌ Please enter some text to generate speech."

/-- Failure message for an explicit error event (line 155). -/
def failed_msg (m : String) : String := "❌ Generation failed: " ++ m

/-- Failure message when `queue.Empty` is raised by the 60-second poll
(line 158). -/
def timeout_msg : String :=
  "❌ Generation timed out after 60 seconds. Please try again with shorter text."

/-- Failure message for an empty accumulated token buffer (line 161). -/
def no_tokens_msg : String :=
  "❌ No semantic tokens generated. Please try again."

/-- How the aggregation loop ends. -/
inductive LoopExit
  | tokens (acc : List Int)
  | failed (result : Option String × String)
deriving DecidableEq, Repr

/-- The aggregation loop (lines 144-158): a success event with a payload
extends the buffer and keeps polling, a success event with `None` breaks, any
other status returns the failure message, a `queue.Empty` timeout returns the
timeout failure. -/
def recv_loop (acc : List Int) : List Poll → Option LoopExit
  | [] => none
  | Poll.timeout :: _ => some (LoopExit.failed (none, timeout_msg))
  | Poll.recv (WrappedGenerateResponse.error m) :: _ =>
    some (LoopExit.failed (none, failed_msg m))
  | Poll.recv (WrappedGenerateResponse.success none) :: _ =>
    some (LoopExit.tokens acc)
  | Poll.recv (WrappedGenerateResponse.success (some toks)) :: rest =>
    recv_loop (acc ++ toks) rest

/-- Pre-enqueue stage of `generate_speech` (lines 92-139): the model-loaded
and blank-text checks, then the `request_data` dict handed to
`model_queue.put`. -/
def generate_speech_pre (model_loaded : Bool) (device : String)
    (text language : String) (max_tokens : Int)
    (temperature top_p repetition_penalty : Rat) :
    Except (Option String × String) RequestData :=
  if !model_loaded then Except.error (none, model_not_loaded_msg)
  else if isBlank text then Except.error (none, empty_text_msg)
  else
    Except.ok
      { text := text
        device := device
        max_new_tokens := max_tokens
        top_p := top_p
        repetition_penalty := repetition_penalty
        temperature := temperature
        chunk_length := 200
        num_samples := 1
        iterative_prompt := true }

/-- The request handed to `model_queue.put`, if that call is reached. -/
def enqueued (model_loaded : Bool) (device : String)
    (text language : String) (max_tokens : Int)
    (temperature top_p repetition_penalty : Rat) : Option RequestData :=
  (generate_speech_pre model_loaded device text language max_tokens
    temperature top_p repetition_penalty).toOption

/-- The success message (lines 176-184). -/
def success_msg (n : Nat) (language text fileName : String) : String :=
  "✅ Speech generation successful!\n\n📊 Generated: " ++ toString n ++
  " semantic tokens\n🌍 Language: " ++ language ++
  "\n📝 Text: " ++ text.take 100 ++ (if text.length > 100 then "..." else "") ++
  "\n\n📁 File saved: " ++ fileName ++
  "\n\n🎵 Your speech has been converted to semantic tokens which represent the AI\x27s understanding of how your text should sound. These tokens can be processed further to create actual audio files."

/-- Full embedding of `generate_speech` (lines 92-190). -/
def generate_speech (model_loaded : Bool) (device uuid_hex : String)
    (text language : String) (max_tokens : Int)
    (temperature top_p repetition_penalty : Rat) (polls : List Poll) :
    Option (Option String × String) :=
  match generate_speech_pre model_loaded device text language max_tokens
      temperature top_p repetition_penalty with
  | Except.error r => some r
  | Except.ok _ =>
    match recv_loop [] polls with
    | none => none
    | some (LoopExit.failed r) => some r
    | some (LoopExit.tokens toks) =>
      if toks.isEmpty then some (none, no_tokens_msg)
      else
        let fileName := "speech_tokens_" ++ uuid_hex ++ ".npy"
        some (some ("temp/" ++ fileName),
          success_msg toks.length language text fileName)

end SimpleWorking

/-! ## `run_fixed_tts_webui.py` — `generate_tts_audio` -/

namespace FixedTTS

/-- The per-style generation parameters of `get_voice_parameters`:
(temperature, top_p, repetition_penalty). -/
def voice_params : List (String × (Rat × Rat × Rat)) :=
  [("neutral", (7/10, 7/10, 3/2)), ("friendly", (4/5, 4/5, 13/10)),
   ("professional", (1/2, 3/5, 8/5)), ("energetic", (9/10, 9/10, 6/5)),
   ("calm", (2/5, 1/2, 17/10)), ("storyteller", (3/5, 7/10, 7/5))]

/-- `get_voice_parameters`: style key to parameter triple, defaulting to the
"neutral" triple. -/
def get_voice_parameters (voice_style : String) : Rat × Rat × Rat :=
  match voice_params.find? (fun p => p.1 == voice_style) with
  | some p => p.2
  | none => (7/10, 7/10, 3/2)

/-- The `BUILTIN_VOICES` table: style key paired with display name. -/
def BUILTIN_VOICES : List (String × String) :=
  [("neutral", "🎭 Neutral Voice"), ("friendly", "😊 Friendly Voice"),
   ("professional", "💼 Professional Voice"), ("energetic", "⚡ Energetic Voice"),
   ("calm", "😌 Calm Voice"), ("storyteller", "📚 Storyteller Voice")]

/-- The `request_data` dict sent to the model queue (lines 160-168). -/
structure RequestData where
  text : String
  references : List (String × String)
  max_new_tokens : Int
  chunk_length : Nat
  top_p : Rat
  repetition_penalty : Rat
  temperature : Rat
deriving DecidableEq, Repr

/-- A `WrappedGenerateResponse` as this caller consumes it (same shape as in
`run_simple_working_webui.py`). -/
inductive WrappedGenerateResponse
  | success (response : Option (List Int))
  | error (message : String)
deriving DecidableEq, Repr

/-- One outcome of `response_queue.get(timeout=30)`. -/
inductive Poll
  | timeout
  | recv (w : WrappedGenerateResponse)
deriving DecidableEq, Repr

/-- The configured poll timeout: `response_queue.get(timeout=30)`, line 189. -/
def poll_timeout : Nat := 30

/-- Failure message when the model queue was never initialised (line 128). -/
def model_not_loaded_msg : String :=
  "❌ Model not loaded. Please restart the application."

/-- Failure message for blank input text (line 131). -/
def empty_text_msg : String :=
  "❌ Please enter some text to generate speech."

/-- Failure message for an explicit error event (line 198). -/
def failed_msg (m : String) : String := "❌ Generation failed: " ++ m

/-- Failure message when `queue.Empty` is raised by the 30-second poll
(line 201). -/
def timeout_msg : String := "❌ Generation timed out. Please try again."

/-- Failure message for an empty accumulated token buffer (line 206). -/
def no_tokens_msg : String :=
  "❌ No semantic tokens generated. Please try again."

/-- How the aggregation loop ends. -/
inductive LoopExit
  | tokens (acc : List Int)
  | failed (result : Option String × String)
deriving DecidableEq, Repr

/-- The aggregation loop (lines 187-201), identical in shape to the
`run_simple_working_webui.py` loop but with the 30-second timeout message. -/
def recv_loop (acc : List Int) : List Poll → Option LoopExit
  | [] => none
  | Poll.timeout :: _ => some (LoopExit.failed (none, timeout_msg))
  | Poll.recv (WrappedGenerateResponse.error m) :: _ =>
    some (LoopExit.failed (none, failed_msg m))
  | Poll.recv (WrappedGenerateResponse.success none) :: _ =>
    some (LoopExit.tokens acc)
  | Poll.recv (WrappedGenerateResponse.success (some toks)) :: rest =>
    recv_loop (acc ++ toks) rest

/-- Pre-enqueue stage of `generate_tts_audio` (lines 113-181): the
model-loaded and blank-text checks, the built-in-voice parameter override,
the optional cloning reference, and the `request_data` dict handed to
`model_queue.put`. -/
def generate_tts_audio_pre (model_loaded : Bool)
    (text language voice_mode builtin_voice : String)
    (reference_audio : Option String) (reference_text : String)
    (max_tokens : Int) (temperature top_p repetition_penalty : Rat) :
    Except (Option String × String) RequestData :=
  if !model_loaded then Except.error (none, model_not_loaded_msg)
  else if isBlank text then Except.error (none, empty_text_msg)
  else
    let params :=
      if voice_mode == "Built-in Voice" then
        match BUILTIN_VOICES.find? (fun p => p.2 == builtin_voice) with
        | some p => get_voice_parameters p.1
        | none => (temperature, top_p, repetition_penalty)
      else (temperature, top_p, repetition_penalty)
    let references :=
      if voice_mode == "Voice Cloning" && truthy reference_audio
          && !reference_text.isEmpty then
        match reference_audio with
        | some ra => [(ra, reference_text)]
        | none => []
      else []
    Except.ok
      { text := text
        references := references
        max_new_tokens := max_tokens
        chunk_length := 200
        top_p := params.2.1
        repetition_penalty := params.2.2
        temperature := params.1 }

/-- The success message (line 218). -/
def success_msg (n : Nat) (language voice_mode builtin_voice filePath : String) :
    String :=
  "✅ Successfully generated " ++ toString n ++ " semantic tokens!\n\nLanguage: " ++
  language ++ "\nVoice: " ++
  (if voice_mode == "Built-in Voice" then builtin_voice else "Custom Voice") ++
  "\nTokens: " ++ toString n ++ "\n\n📁 Semantic tokens saved to: " ++ filePath ++
  "\n\n⚠️ Note: Audio decoding is not available due to decoder model compatibility issues. The semantic tokens contain the AI representation of your speech and can be used for further processing."

/-- Full embedding of `generate_tts_audio` (lines 113-223). -/
def generate_tts_audio (model_loaded : Bool) (uuid_hex : String)
    (text language voice_mode builtin_voice : String)
    (reference_audio : Option String) (reference_text : String)
    (max_tokens : Int) (temperature top_p repetition_penalty : Rat)
    (polls : List Poll) : Option (Option String × String) :=
  match generate_tts_audio_pre model_loaded text language voice_mode
      builtin_voice reference_audio reference_text max_tokens temperature
      top_p repetition_penalty with
  | Except.error r => some r
  | Except.ok _ =>
    match recv_loop [] polls with
    | none => none
    | some (LoopExit.failed r) => some r
    | some (LoopExit.tokens toks) =>
      if toks.isEmpty then some (none, no_tokens_msg)
      else
        let filePath := "temp/semantic_tokens_" ++ uuid_hex ++ ".npy"
        some (some filePath,
          success_msg toks.length language voice_mode builtin_voice filePath)

end FixedTTS

/-! ## `run_simple_webui.py` — `generate_semantic_tokens` -/

namespace RunSimple

/-- The `SimpleRequest` object built inside `generate_semantic_tokens`
(lines 59-71); `references` entries are (audio, transcript) pairs, empty on
this path. -/
structure SimpleRequest where
  text : String
  references : List (String × String)
  reference_id : Option String
  max_new_tokens : Int
  temperature : Rat
  top_p : Rat
  repetition_penalty : Rat
  chunk_length : Nat
  seed : Option Int
  use_memory_cache : Bool
deriving DecidableEq, Repr

/-- The blank-text early return of `generate_semantic_tokens`
(lines 53-54): the three-component Gradio result. -/
def empty_text_result : String × Option String × String :=
  ("Please enter some text!", none, "No text provided")

/-- Pre-enqueue stage of `generate_semantic_tokens` (lines 50-74): the
blank-text check, then the `SimpleRequest` handed to `llama_queue.put`. -/
def generate_semantic_tokens_pre (text : String) (max_new_tokens : Int)
    (temperature top_p repetition_penalty : Rat) :
    Except (String × Option String × String) SimpleRequest :=
  if isBlank text then Except.error empty_text_result
  else
    Except.ok
      { text := text
        references := []
        reference_id := none
        max_new_tokens := max_new_tokens
        temperature := temperature
        top_p := top_p
        repetition_penalty := repetition_penalty
        chunk_length := 200
        seed := none
        use_memory_cache := true }

/-- The request handed to `llama_queue.put`, if that call is reached. -/
def enqueued (text : String) (max_new_tokens : Int)
    (temperature top_p repetition_penalty : Rat) : Option SimpleRequest :=
  (generate_semantic_tokens_pre text max_new_tokens temperature top_p
    repetition_penalty).toOption

end RunSimple

/-! ## Helper lemmas -/

/-- Two strings differ when they disagree at a position inside a fixed
prefix: used to separate the caller failure messages, whose interpolated tail
is arbitrary. -/
theorem ne_append_of_ne_get (a p : String) (i : Nat) (hi : i < p.data.length)
    (hne : a.data[i]? ≠ p.data[i]?) (m : String) : a ≠ p ++ m := by
  intro h
  apply hne
  rw [h, String.data_append, List.getElem?_append_left hi]

/-- A string with positive length is not the empty string. -/
theorem ne_empty_of_length_pos (s : String) (h : 0 < s.length) : s ≠ "" := by
  intro hs
  rw [hs] at h
  simp at h

/-- Appending to a nonempty prefix yields a nonempty string. -/
theorem append_ne_empty (p m : String) (hp : 0 < p.length) : p ++ m ≠ "" := by
  apply ne_empty_of_length_pos
  rw [String.length_append]
  omega

/-- Every completed run of the `run_final_working_webui.py` aggregation loop
breaks with a token buffer, times out, or fails with an error message of the
fixed shape. -/
theorem finalWorking_recv_loop_cases (polls : List FinalWorking.Poll) :
    ∀ (acc : List Int) (e : FinalWorking.LoopExit),
    FinalWorking.recv_loop acc polls = some e →
    (∃ toks, e = FinalWorking.LoopExit.tokens toks)
    ∨ e = FinalWorking.LoopExit.failed (none, FinalWorking.timeout_msg)
    ∨ ∃ m, e = FinalWorking.LoopExit.failed (none, FinalWorking.failed_msg m) := by
  induction polls with
  | nil => intro acc e h; simp [FinalWorking.recv_loop] at h
  | cons p rest ih =>
    intro acc e h
    match p with
    | FinalWorking.Poll.timeout =>
      simp [FinalWorking.recv_loop] at h
      exact Or.inr (Or.inl h.symm)
    | FinalWorking.Poll.recv (FinalWorking.WrappedGenerateResponse.error m) =>
      simp [FinalWorking.recv_loop] at h
      exact Or.inr (Or.inr ⟨m, h.symm⟩)
    | FinalWorking.Poll.recv (FinalWorking.WrappedGenerateResponse.success none) =>
      simp [FinalWorking.recv_loop] at h
      exact Or.inl ⟨acc, h.symm⟩
    | FinalWorking.Poll.recv (FinalWorking.WrappedGenerateResponse.success (some g)) =>
      rw [FinalWorking.recv_loop] at h
      by_cases hs : g.action == "sample"
      · rw [if_pos hs] at h
        exact Or.inl ⟨_, (Option.some.injEq _ _ ▸ h).symm⟩
      · rw [if_neg hs] at h
        exact ih _ e h

/-- Loop-outcome characterization for the `run_simple_working_webui.py`
aggregation loop. -/
theorem simpleWorking_recv_loop_cases (polls : List SimpleWorking.Poll) :
    ∀ (acc : List Int) (e : SimpleWorking.LoopExit),
    SimpleWorking.recv_loop acc polls = some e →
    (∃ toks, e = SimpleWorking.LoopExit.tokens toks)
    ∨ e = SimpleWorking.LoopExit.failed (none, SimpleWorking.timeout_msg)
    ∨ ∃ m, e = SimpleWorking.LoopExit.failed (none, SimpleWorking.failed_msg m) := by
  induction polls with
  | nil => intro acc e h; simp [SimpleWorking.recv_loop] at h
  | cons p rest ih =>
    intro acc e h
    match p with
    | SimpleWorking.Poll.timeout =>
      simp [SimpleWorking.recv_loop] at h
      exact Or.inr (Or.inl h.symm)
    | SimpleWorking.Poll.recv (SimpleWorking.WrappedGenerateResponse.error m) =>
      simp [SimpleWorking.recv_loop] at h
      exact Or.inr (Or.inr ⟨m, h.symm⟩)
    | SimpleWorking.Poll.recv (SimpleWorking.WrappedGenerateResponse.success none) =>
      simp [SimpleWorking.recv_loop] at h
      exact Or.inl ⟨acc, h.symm⟩
    | SimpleWorking.Poll.recv (SimpleWorking.WrappedGenerateResponse.success (some toks)) =>
      rw [SimpleWorking.recv_loop] at h
      exact ih _ e h

/-- Loop-outcome characterization for the `run_fixed_tts_webui.py`
aggregation loop. -/
theorem fixedTTS_recv_loop_cases (polls : List FixedTTS.Poll) :
    ∀ (acc : List Int) (e : FixedTTS.LoopExit),
    FixedTTS.recv_loop acc polls = some e →
    (∃ toks, e = FixedTTS.LoopExit.tokens toks)
    ∨ e = FixedTTS.LoopExit.failed (none, FixedTTS.timeout_msg)
    ∨ ∃ m, e = FixedTTS.LoopExit.failed (none, FixedTTS.failed_msg m) := by
  induction polls with
  | nil => intro acc e h; simp [FixedTTS.recv_loop] at h
  | cons p rest ih =>
    intro acc e h
    match p with
    | FixedTTS.Poll.timeout =>
      simp [FixedTTS.recv_loop] at h
      exact Or.inr (Or.inl h.symm)
    | FixedTTS.Poll.recv (FixedTTS.WrappedGenerateResponse.error m) =>
      simp [FixedTTS.recv_loop] at h
      exact Or.inr (Or.inr ⟨m, h.symm⟩)
    | FixedTTS.Poll.recv (FixedTTS.WrappedGenerateResponse.success none) =>
      simp [FixedTTS.recv_loop] at h
      exact Or.inl ⟨acc, h.symm⟩
    | FixedTTS.Poll.recv (FixedTTS.WrappedGenerateResponse.success (some toks)) =>
      rw [FixedTTS.recv_loop] at h
      exact ih _ e h

/-- The final status check never changes the list of requests made. -/
theorem finishResp_snd (r : HTTPResp) (made : List TTSRequestOut) :
    (finishResp r made).2 = made := by
  unfold finishResp
  split <;> rfl

/-- Every request made by the plain branch is the base payload. -/
theorem call_tts_plain_made (provider : TTSRequestOut → HTTPResp)
    (text model : String) (speed : Rat) (voice_id : Option String)
    (r : TTSRequestOut) (hr : r ∈ (call_tts_plain provider text model speed voice_id).2) :
    r = base_payload text model speed voice_id := by
  simp only [call_tts_plain, finishResp_snd] at hr
  simpa using hr

/-- Every request made by the cloning branch is one of the three attempts. -/
theorem call_tts_cloning_made (provider : TTSRequestOut → HTTPResp)
    (text model : String) (speed : Rat) (voice_id : Option String)
    (a t : String) (r : TTSRequestOut)
    (hr : r ∈ (call_tts_cloning provider text model speed voice_id a t).2) :
    r = attempt1 text model speed a t ∨ r = attempt2 text model speed a t
    ∨ r = attempt3 text model speed voice_id a t := by
  simp only [call_tts_cloning] at hr
  split at hr
  · rw [finishResp_snd] at hr
    simp at hr
    exact Or.inl hr
  · split at hr
    · rw [finishResp_snd] at hr
      simp at hr
      rcases hr with h | h
      · exact Or.inl h
      · exact Or.inr (Or.inl h)
    · rw [finishResp_snd] at hr
      simp at hr
      rcases hr with h | h | h
      · exact Or.inl h
      · exact Or.inr (Or.inl h)
      · exact Or.inr (Or.inr h)

/-- Every request `call_tts` makes is the base payload or one of the three
cloning attempts. -/
theorem call_tts_made (provider : TTSRequestOut → HTTPResp)
    (api_key text model : String) (speed : Rat)
    (voice_id ref_audio_b64 ref_text : Option String) (r : TTSRequestOut)
    (hr : r ∈ (call_tts provider api_key text model speed voice_id ref_audio_b64 ref_text).2) :
    r = base_payload text model speed voice_id
    ∨ (∃ a t, r = attempt1 text model speed a t)
    ∨ (∃ a t, r = attempt2 text model speed a t)
    ∨ (∃ a t, r = attempt3 text model speed voice_id a t) := by
  simp only [call_tts] at hr
  split at hr
  · simp at hr
  · split at hr
    · simp at hr
    · split at hr
      · rename_i a t
        split at hr
        · exact Or.inl (call_tts_plain_made _ _ _ _ _ _ hr)
        · rcases call_tts_cloning_made _ _ _ _ _ _ _ _ hr with h | h | h
          · exact Or.inr (Or.inl ⟨a, t, h⟩)
          · exact Or.inr (Or.inr (Or.inl ⟨a, t, h⟩))
          · exact Or.inr (Or.inr (Or.inr ⟨a, t, h⟩))
      · exact Or.inl (call_tts_plain_made _ _ _ _ _ _ hr)

/-! ## Claims -/

/-- C1: whenever a poll on the response channel yields no event within the
configured timeout (60 s in `run_final_working_webui.py` and
`run_simple_working_webui.py`, 30 s in `run_fixed_tts_webui.py`), the
aggregation loop terminates at once with a failure whose message names the
timeout and differs from every error-event message and from the no-content
message; the `queue.Empty` outcome is consumed by the loop (it is an ordinary
`Poll.timeout` value here, not an escaping exception), and the enclosing
generation function returns the failure result. -/
theorem c1_poll_timeout_terminates_with_timeout_failure :
    (∀ acc rest, FinalWorking.recv_loop acc (FinalWorking.Poll.timeout :: rest) =
      some (FinalWorking.LoopExit.failed (none, FinalWorking.timeout_msg)))
    ∧ (∀ acc rest, SimpleWorking.recv_loop acc (SimpleWorking.Poll.timeout :: rest) =
      some (SimpleWorking.LoopExit.failed (none, SimpleWorking.timeout_msg)))
    ∧ (∀ acc rest, FixedTTS.recv_loop acc (FixedTTS.Poll.timeout :: rest) =
      some (FixedTTS.LoopExit.failed (none, FixedTTS.timeout_msg)))
    ∧ FinalWorking.poll_timeout = 60 ∧ SimpleWorking.poll_timeout = 60
    ∧ FixedTTS.poll_timeout = 30
    ∧ (∀ m, FinalWorking.timeout_msg ≠ FinalWorking.failed_msg m)
    ∧ (∀ m, SimpleWorking.timeout_msg ≠ SimpleWorking.failed_msg m)
    ∧ (∀ m, FixedTTS.timeout_msg ≠ FixedTTS.failed_msg m)
    ∧ FinalWorking.timeout_msg ≠ FinalWorking.no_tokens_msg
    ∧ FixedTTS.timeout_msg ≠ FixedTTS.no_tokens_msg
    ∧ (∀ device uuid text language voice_style max_tokens temperature top_p
        repetition_penalty rest, isBlank text = false →
      FinalWorking.generate_speech_with_voice true device uuid text language
        voice_style max_tokens temperature top_p repetition_penalty
        (FinalWorking.Poll.timeout :: rest) = some (none, FinalWorking.timeout_msg)) := by
  refine ⟨fun acc rest => rfl, fun acc rest => rfl, fun acc rest => rfl,
    rfl, rfl, rfl, ?_, ?_, ?_, by decide, by decide, ?_⟩
  · intro m
    exact ne_append_of_ne_get FinalWorking.timeout_msg "❌ Generation failed: "
      13 (by decide) (by decide) m
  · intro m
    exact ne_append_of_ne_get SimpleWorking.timeout_msg "❌ Generation failed: "
      13 (by decide) (by decide) m
  · intro m
    exact ne_append_of_ne_get FixedTTS.timeout_msg "❌ Generation failed: "
      13 (by decide) (by decide) m
  · intro device uuid text language voice_style max_tokens temperature top_p
      repetition_penalty rest ht
    simp [FinalWorking.generate_speech_with_voice,
      FinalWorking.generate_speech_with_voice_pre, ht, FinalWorking.recv_loop]

/-- Witness for C1 at a concrete input: a run of
`generate_speech_with_voice` whose first poll times out returns the timeout
failure. -/
theorem c1_witness :
    isBlank "Hello" = false ∧
    FinalWorking.generate_speech_with_voice true "cpu" "abcd1234" "Hello"
      "🌍 Auto-detect" "🎭 Neutral" 512 (7/10) (7/10) (3/2)
      [FinalWorking.Poll.timeout] = some (none, FinalWorking.timeout_msg) :=
  ⟨by decide,
    c1_poll_timeout_terminates_with_timeout_failure.2.2.2.2.2.2.2.2.2.2.2
      "cpu" "abcd1234" "Hello" "🌍 Auto-detect" "🎭 Neutral" 512 (7/10) (7/10)
      (3/2) [] (by decide)⟩

/-- C2: an event whose status is not success makes the aggregation loop
return a failure carrying the error message at once: whatever token chunks
were buffered are discarded (the returned payload is `none`), in
`run_final_working_webui.py` and `run_simple_working_webui.py`; the same
holds through the full `generate_speech_with_voice` caller. -/
theorem c2_error_event_fails_and_discards_buffer :
    (∀ acc m rest, FinalWorking.recv_loop acc
        (FinalWorking.Poll.recv (FinalWorking.WrappedGenerateResponse.error m) :: rest)
      = some (FinalWorking.LoopExit.failed (none, FinalWorking.failed_msg m)))
    ∧ (∀ acc m rest, SimpleWorking.recv_loop acc
        (SimpleWorking.Poll.recv (SimpleWorking.WrappedGenerateResponse.error m) :: rest)
      = some (SimpleWorking.LoopExit.failed (none, SimpleWorking.failed_msg m)))
    ∧ (∀ device uuid text language voice_style max_tokens temperature top_p
        repetition_penalty m rest, isBlank text = false →
      FinalWorking.generate_speech_with_voice true device uuid text language
        voice_style max_tokens temperature top_p repetition_penalty
        (FinalWorking.Poll.recv (FinalWorking.WrappedGenerateResponse.error m) :: rest)
      = some (none, FinalWorking.failed_msg m)) := by
  refine ⟨fun acc m rest => rfl, fun acc m rest => rfl, ?_⟩
  intro device uuid text language voice_style max_tokens temperature top_p
    repetition_penalty m rest ht
  simp [FinalWorking.generate_speech_with_voice,
    FinalWorking.generate_speech_with_voice_pre, ht, FinalWorking.recv_loop]

/-- Witness for C2 at a concrete input: an error event arriving first makes
the caller fail with that error message and no payload. -/
theorem c2_witness :
    isBlank "Hello" = false ∧
    FinalWorking.generate_speech_with_voice true "cpu" "abcd1234" "Hello"
      "🌍 Auto-detect" "🎭 Neutral" 512 (7/10) (7/10) (3/2)
      [FinalWorking.Poll.recv (FinalWorking.WrappedGenerateResponse.error "CUDA out of memory")]
      = some (none, FinalWorking.failed_msg "CUDA out of memory") :=
  ⟨by decide,
    c2_error_event_fails_and_discards_buffer.2.2 "cpu" "abcd1234" "Hello"
      "🌍 Auto-detect" "🎭 Neutral" 512 (7/10) (7/10) (3/2)
      "CUDA out of memory" [] (by decide)⟩

/-- Counterexample to C3: a request with `temperature = 0` passes every
pre-enqueue check of `generate_speech_with_voice` and `generate_speech`, and
the request handed to `model_queue.put` carries temperature 0 — no
`InvalidParameters` error is reported and the enqueue is reached. -/
theorem c3_counterexample :
    FinalWorking.enqueued true "cpu" "Hello world" "🌍 Auto-detect" "🎭 Neutral"
      512 0 1 2 =
      some { text := "Hello world", device := "cpu", max_new_tokens := 512,
             top_p := 1, repetition_penalty := 2, temperature := 0,
             chunk_length := 200, num_samples := 1, iterative_prompt := true }
    ∧ SimpleWorking.enqueued true "cpu" "Hello world" "🌍 Auto-detect" 512 0 1 2 =
      some { text := "Hello world", device := "cpu", max_new_tokens := 512,
             top_p := 1, repetition_penalty := 2, temperature := 0,
             chunk_length := 200, num_samples := 1, iterative_prompt := true } := by
  constructor <;> rfl

/-- C3 as amended: the callers perform no temperature validation.  When the
model is loaded and the text not blank, a request with `temperature = 0` is
enqueued unchanged onto the shared model queue, with no error reported before
the enqueue. -/
theorem c3_amended_temperature_zero_is_enqueued
    (device text language voice_style : String) (max_tokens : Int)
    (top_p repetition_penalty : Rat) (ht : isBlank text = false) :
    (FinalWorking.enqueued true device text language voice_style
        max_tokens 0 top_p repetition_penalty).map
      (fun req => req.temperature) = some 0
    ∧ (SimpleWorking.enqueued true device text language max_tokens 0
        top_p repetition_penalty).map (fun req => req.temperature) = some 0 := by
  constructor
  · simp [FinalWorking.enqueued, FinalWorking.generate_speech_with_voice_pre, ht,
      Except.toOption]
  · simp [SimpleWorking.enqueued, SimpleWorking.generate_speech_pre, ht,
      Except.toOption]

/-- Witness for the amended C3 at a concrete input. -/
theorem c3_amended_witness :
    isBlank "Hello world" = false ∧
    ((FinalWorking.enqueued true "cpu" "Hello world" "🌍 Auto-detect"
        "🎭 Neutral" 512 0 1 2).map (fun req => req.temperature) = some 0
    ∧ (SimpleWorking.enqueued true "cpu" "Hello world" "🌍 Auto-detect"
        512 0 1 2).map (fun req => req.temperature) = some 0) :=
  ⟨by decide,
    c3_amended_temperature_zero_is_enqueued "cpu" "Hello world" "🌍 Auto-detect"
      "🎭 Neutral" 512 1 2 (by decide)⟩

/-- A provider that accepts only the multipart schema, for concrete runs of
the fallback chain. -/
def providerMultipartOnly : TTSRequestOut → HTTPResp :=
  fun r => if r.schema = Schema.multipart then ⟨200, "AUDIOBYTES", "ok"⟩
           else ⟨400, "", "unsupported schema"⟩

/-- A provider that rejects every request, for concrete runs of the
exhausted-fallback path. -/
def providerAlwaysFail : TTSRequestOut → HTTPResp := fun _ => ⟨500, "", "server error"⟩

/-- C4: with reference audio and reference text supplied, `call_tts` tries
the schema variants in the fixed order references-JSON, legacy-JSON,
multipart; an HTTP 200 stops all later attempts, and when the provider
rejects the first two variants and accepts the third, exactly the three
requests are made, in order, and the call returns the audio bytes with
success. -/
theorem c4_schema_fallback_order (provider : TTSRequestOut → HTTPResp)
    (api_key text model : String) (speed : Rat) (voice_id : Option String)
    (a t : String) (hk : api_key.isEmpty = false) (ht : isBlank text = false)
    (ha : a.isEmpty = false) (hta : t.isEmpty = false) :
    ((provider (attempt1 text model speed a t)).status = 200 →
      call_tts provider api_key text model speed voice_id (some a) (some t) =
        ((some (provider (attempt1 text model speed a t)).content, ""),
          [attempt1 text model speed a t]))
    ∧ ((provider (attempt1 text model speed a t)).status ≠ 200 →
       (provider (attempt2 text model speed a t)).status = 200 →
      call_tts provider api_key text model speed voice_id (some a) (some t) =
        ((some (provider (attempt2 text model speed a t)).content, ""),
          [attempt1 text model speed a t, attempt2 text model speed a t]))
    ∧ ((provider (attempt1 text model speed a t)).status ≠ 200 →
       (provider (attempt2 text model speed a t)).status ≠ 200 →
       (provider (attempt3 text model speed voice_id a t)).status = 200 →
      call_tts provider api_key text model speed voice_id (some a) (some t) =
        ((some (provider (attempt3 text model speed voice_id a t)).content, ""),
          [attempt1 text model speed a t, attempt2 text model speed a t,
           attempt3 text model speed voice_id a t])) := by
  refine ⟨?_, ?_, ?_⟩
  · intro h1
    simp [call_tts, hk, ht, ha, hta, call_tts_cloning, finishResp, h1]
  · intro h1 h2
    simp [call_tts, hk, ht, ha, hta, call_tts_cloning, finishResp, h1, h2]
  · intro h1 h2 h3
    simp [call_tts, hk, ht, ha, hta, call_tts_cloning, finishResp, h1, h2, h3]

/-- Witness for C4 at a concrete input: a provider accepting only the
multipart variant makes `call_tts` perform exactly the three attempts in
order and return the audio with success. -/
theorem c4_witness :
    call_tts providerMultipartOnly "key" "Hello" "speech-1.5" 1 (some "v")
      (some "AUD") (some "REF") =
      ((some "AUDIOBYTES", ""),
        [attempt1 "Hello" "speech-1.5" 1 "AUD" "REF",
         attempt2 "Hello" "speech-1.5" 1 "AUD" "REF",
         attempt3 "Hello" "speech-1.5" 1 (some "v") "AUD" "REF"]) :=
  (c4_schema_fallback_order providerMultipartOnly "key" "Hello" "speech-1.5" 1
    (some "v") "AUD" "REF" (by decide) (by decide) (by decide) (by decide)).2.2
    (by decide) (by decide) (by decide)

/-- C5: when every attempted schema variant fails (no HTTP 200), `call_tts`
returns no audio together with the message built verbatim from the status
code and body text of the last provider response — the multipart attempt in
the cloning path, the single plain request otherwise. -/
theorem c5_all_variants_fail_surfaces_last_response
    (provider : TTSRequestOut → HTTPResp)
    (api_key text model : String) (speed : Rat) (voice_id : Option String)
    (a t : String) (hk : api_key.isEmpty = false) (ht : isBlank text = false)
    (ha : a.isEmpty = false) (hta : t.isEmpty = false) :
    ((provider (attempt1 text model speed a t)).status ≠ 200 →
     (provider (attempt2 text model speed a t)).status ≠ 200 →
     (provider (attempt3 text model speed voice_id a t)).status ≠ 200 →
      call_tts provider api_key text model speed voice_id (some a) (some t) =
        ((none, "API " ++ toString (provider (attempt3 text model speed voice_id a t)).status
            ++ ": " ++ (provider (attempt3 text model speed voice_id a t)).text),
          [attempt1 text model speed a t, attempt2 text model speed a t,
           attempt3 text model speed voice_id a t]))
    ∧ ((provider (base_payload text model speed voice_id)).status ≠ 200 →
      call_tts provider api_key text model speed voice_id none none =
        ((none, "API " ++ toString (provider (base_payload text model speed voice_id)).status
            ++ ": " ++ (provider (base_payload text model speed voice_id)).text),
          [base_payload text model speed voice_id])) := by
  constructor
  · intro h1 h2 h3
    simp [call_tts, hk, ht, ha, hta, call_tts_cloning, finishResp, h1, h2, h3]
  · intro h0
    simp [call_tts, hk, ht, call_tts_plain, finishResp, h0]

/-- Witness for C5 at a concrete input: a provider failing every request
makes `call_tts` surface the last response status and text. -/
theorem c5_witness :
    call_tts providerAlwaysFail "key" "Hello" "speech-1.5" 1 (some "v")
      (some "AUD") (some "REF") =
      ((none, "API 500: server error"),
        [attempt1 "Hello" "speech-1.5" 1 "AUD" "REF",
         attempt2 "Hello" "speech-1.5" 1 "AUD" "REF",
         attempt3 "Hello" "speech-1.5" 1 (some "v") "AUD" "REF"]) :=
  (c5_all_variants_fail_surfaces_last_response providerAlwaysFail "key" "Hello"
    "speech-1.5" 1 (some "v") "AUD" "REF" (by decide) (by decide) (by decide)
    (by decide)).1 (by decide) (by decide) (by decide)

/-- Counterexample to C6: when the caller passes a voice id together with a
cloning reference and the provider rejects the two JSON variants, the third
(multipart) request sent by `call_tts` carries the populated `voice_id` form
field and the reference audio file at the same time. -/
theorem c6_counterexample :
    ∃ r, r ∈ (call_tts providerAlwaysFail "key" "Hello" "speech-1.5" 1 (some "v")
        (some "AUD") (some "REF")).2
    ∧ hasVoiceId r = true ∧ hasCloningRef r = true := by
  refine ⟨attempt3 "Hello" "speech-1.5" 1 (some "v") "AUD" "REF", ?_, rfl, rfl⟩
  decide

/-- C6 as amended: in the plain JSON request and in the two JSON cloning
variants the voice-preset identifier and the cloning reference are never both
populated (the cloning variants pop `voice_id`); only the multipart variant
can carry both, and it does so exactly when the caller supplies a truthy
voice id alongside the reference. -/
theorem c6_amended_only_multipart_combines_voice_and_reference
    (provider : TTSRequestOut → HTTPResp) (api_key text model : String)
    (speed : Rat) (voice_id ref_audio_b64 ref_text : Option String)
    (r : TTSRequestOut)
    (hr : r ∈ (call_tts provider api_key text model speed voice_id ref_audio_b64 ref_text).2)
    (hv : hasVoiceId r = true) (hc : hasCloningRef r = true) :
    r.schema = Schema.multipart := by
  rcases call_tts_made provider api_key text model speed voice_id ref_audio_b64
      ref_text r hr with h | ⟨a, t, h⟩ | ⟨a, t, h⟩ | ⟨a, t, h⟩
  · subst h
    simp [hasCloningRef, base_payload] at hc
  · subst h
    simp [hasVoiceId, attempt1] at hv
  · subst h
    simp [hasVoiceId, attempt2] at hv
  · subst h
    rfl

/-- Witness for the amended C6 at a concrete input: the only request of the
concrete C6 run that carries both fields is the multipart one. -/
theorem c6_amended_witness :
    (attempt3 "Hello" "speech-1.5" 1 (some "v") "AUD" "REF").schema =
      Schema.multipart :=
  c6_amended_only_multipart_combines_voice_and_reference providerAlwaysFail
    "key" "Hello" "speech-1.5" 1 (some "v") (some "AUD") (some "REF")
    (attempt3 "Hello" "speech-1.5" 1 (some "v") "AUD" "REF")
    (by decide) (by decide) (by decide)

/-- C7: a call of a caller-side generation function whose text is empty or
whitespace-only fails immediately — the result carries no payload — and no
request reaches the shared model queue, in `generate_speech_with_voice`
(`run_final_working_webui.py`), `generate_speech`
(`run_simple_working_webui.py`) and `generate_semantic_tokens`
(`run_simple_webui.py`). -/
theorem c7_blank_text_fails_without_enqueue
    (model_loaded : Bool) (device uuid text language voice_style : String)
    (max_tokens : Int) (temperature top_p repetition_penalty : Rat)
    (hb : isBlank text = true) :
    FinalWorking.enqueued model_loaded device text language voice_style
      max_tokens temperature top_p repetition_penalty = none
    ∧ (∃ m, ∀ polls, FinalWorking.generate_speech_with_voice model_loaded device
        uuid text language voice_style max_tokens temperature top_p
        repetition_penalty polls = some (none, m))
    ∧ SimpleWorking.enqueued model_loaded device text language max_tokens
        temperature top_p repetition_penalty = none
    ∧ (∃ m, ∀ polls, SimpleWorking.generate_speech model_loaded device uuid text
        language max_tokens temperature top_p repetition_penalty polls =
        some (none, m))
    ∧ RunSimple.enqueued text max_tokens temperature top_p repetition_penalty = none
    ∧ RunSimple.generate_semantic_tokens_pre text max_tokens temperature top_p
        repetition_penalty = Except.error RunSimple.empty_text_result := by
  cases model_loaded with
  | false =>
    refine ⟨rfl, ⟨FinalWorking.model_not_loaded_msg, fun polls => rfl⟩, rfl,
      ⟨SimpleWorking.model_not_loaded_msg, fun polls => rfl⟩, ?_, ?_⟩
    · simp [RunSimple.enqueued, RunSimple.generate_semantic_tokens_pre, hb,
        Except.toOption]
    · simp [RunSimple.generate_semantic_tokens_pre, hb]
  | true =>
    refine ⟨?_, ⟨FinalWorking.empty_text_msg, fun polls => ?_⟩, ?_,
      ⟨SimpleWorking.empty_text_msg, fun polls => ?_⟩, ?_, ?_⟩
    · simp [FinalWorking.enqueued, FinalWorking.generate_speech_with_voice_pre,
        hb, Except.toOption]
    · simp [FinalWorking.generate_speech_with_voice,
        FinalWorking.generate_speech_with_voice_pre, hb]
    · simp [SimpleWorking.enqueued, SimpleWorking.generate_speech_pre, hb,
        Except.toOption]
    · simp [SimpleWorking.generate_speech, SimpleWorking.generate_speech_pre, hb]
    · simp [RunSimple.enqueued, RunSimple.generate_semantic_tokens_pre, hb,
        Except.toOption]
    · simp [RunSimple.generate_semantic_tokens_pre, hb]

/-- Witness for C7 at a concrete input: a whitespace-only text is rejected
with nothing enqueued. -/
theorem c7_witness :
    isBlank "   " = true ∧
    (FinalWorking.enqueued true "cpu" "   " "🌍 Auto-detect" "🎭 Neutral"
        512 1 1 2 = none
    ∧ (∃ m, ∀ polls, FinalWorking.generate_speech_with_voice true "cpu"
        "abcd1234" "   " "🌍 Auto-detect" "🎭 Neutral" 512 1 1 2 polls =
        some (none, m))
    ∧ SimpleWorking.enqueued true "cpu" "   " "🌍 Auto-detect" 512 1 1 2 = none
    ∧ (∃ m, ∀ polls, SimpleWorking.generate_speech true "cpu" "abcd1234" "   "
        "🌍 Auto-detect" 512 1 1 2 polls = some (none, m))
    ∧ RunSimple.enqueued "   " 512 1 1 2 = none
    ∧ RunSimple.generate_semantic_tokens_pre "   " 512 1 1 2 =
        Except.error RunSimple.empty_text_result) :=
  ⟨by decide,
    c7_blank_text_fails_without_enqueue true "cpu" "abcd1234" "   "
      "🌍 Auto-detect" "🎭 Neutral" 512 1 1 2 (by decide)⟩

/-- C8: a run whose aggregation loop ends on the terminal done signal with an
empty token buffer returns the distinct no-content failure, whose message
differs from the error-event messages and from the timeout message, in
`run_final_working_webui.py` (both done conventions: a `None` response and an
`action == "sample"` response carrying no codes) and in
`run_fixed_tts_webui.py`. -/
theorem c8_empty_buffer_at_done_yields_distinct_no_content :
    (∀ device uuid text language voice_style max_tokens temperature top_p
        repetition_penalty rest, isBlank text = false →
      FinalWorking.generate_speech_with_voice true device uuid text language
        voice_style max_tokens temperature top_p repetition_penalty
        (FinalWorking.Poll.recv (FinalWorking.WrappedGenerateResponse.success none) :: rest)
        = some (none, FinalWorking.no_tokens_msg))
    ∧ (∀ device uuid text language voice_style max_tokens temperature top_p
        repetition_penalty rest, isBlank text = false →
      FinalWorking.generate_speech_with_voice true device uuid text language
        voice_style max_tokens temperature top_p repetition_penalty
        (FinalWorking.Poll.recv (FinalWorking.WrappedGenerateResponse.success
          (some ⟨"sample", none⟩)) :: rest)
        = some (none, FinalWorking.no_tokens_msg))
    ∧ (∀ uuid text language voice_mode builtin_voice reference_audio
        reference_text max_tokens temperature top_p repetition_penalty rest,
        isBlank text = false →
      FixedTTS.generate_tts_audio true uuid text language voice_mode
        builtin_voice reference_audio reference_text max_tokens temperature
        top_p repetition_penalty
        (FixedTTS.Poll.recv (FixedTTS.WrappedGenerateResponse.success none) :: rest)
        = some (none, FixedTTS.no_tokens_msg))
    ∧ FinalWorking.no_tokens_msg ≠ FinalWorking.timeout_msg
    ∧ (∀ m, FinalWorking.no_tokens_msg ≠ FinalWorking.failed_msg m)
    ∧ FixedTTS.no_tokens_msg ≠ FixedTTS.timeout_msg
    ∧ (∀ m, FixedTTS.no_tokens_msg ≠ FixedTTS.failed_msg m) := by
  refine ⟨?_, ?_, ?_, by decide, ?_, by decide, ?_⟩
  · intro device uuid text language voice_style max_tokens temperature top_p
      repetition_penalty rest ht
    simp [FinalWorking.generate_speech_with_voice,
      FinalWorking.generate_speech_with_voice_pre, ht, FinalWorking.recv_loop]
  · intro device uuid text language voice_style max_tokens temperature top_p
      repetition_penalty rest ht
    simp [FinalWorking.generate_speech_with_voice,
      FinalWorking.generate_speech_with_voice_pre, ht, FinalWorking.recv_loop]
  · intro uuid text language voice_mode builtin_voice reference_audio
      reference_text max_tokens temperature top_p repetition_penalty rest ht
    simp [FixedTTS.generate_tts_audio, FixedTTS.generate_tts_audio_pre, ht,
      FixedTTS.recv_loop]
  · intro m
    exact ne_append_of_ne_get FinalWorking.no_tokens_msg "❌ Generation failed: "
      2 (by decide) (by decide) m
  · intro m
    exact ne_append_of_ne_get FixedTTS.no_tokens_msg "❌ Generation failed: "
      2 (by decide) (by decide) m

/-- Witness for C8 at a concrete input: a done-first trace yields the
no-content failure. -/
theorem c8_witness :
    isBlank "Hello" = false ∧
    FinalWorking.generate_speech_with_voice true "cpu" "abcd1234" "Hello"
      "🌍 Auto-detect" "🎭 Neutral" 512 (7/10) (7/10) (3/2)
      [FinalWorking.Poll.recv (FinalWorking.WrappedGenerateResponse.success none)]
      = some (none, FinalWorking.no_tokens_msg) :=
  ⟨by decide,
    c8_empty_buffer_at_done_yields_distinct_no_content.1 "cpu" "abcd1234"
      "Hello" "🌍 Auto-detect" "🎭 Neutral" 512 (7/10) (7/10) (3/2) []
      (by decide)⟩

/-- The final status check always yields success-with-audio or a nonempty
failure message. -/
theorem finishResp_outcome (resp : HTTPResp) (made : List TTSRequestOut) :
    (∃ c, (finishResp resp made).1 = (some c, ""))
    ∨ (∃ m, (finishResp resp made).1 = (none, m) ∧ m ≠ "") := by
  unfold finishResp
  split
  · exact Or.inl ⟨resp.content, rfl⟩
  · refine Or.inr ⟨_, rfl, ?_⟩
    apply append_ne_empty
    have h4 : 0 < "API ".length := by decide
    rw [String.length_append, String.length_append]
    omega

/-- Every completed run of `generate_speech_with_voice` returns a payload or
a failure with a nonempty message. -/
theorem finalWorking_generate_outcome_shape (model_loaded : Bool)
    (device uuid text language voice_style : String) (max_tokens : Int)
    (temperature top_p repetition_penalty : Rat)
    (polls : List FinalWorking.Poll) (r : Option String × String)
    (h : FinalWorking.generate_speech_with_voice model_loaded device uuid text
      language voice_style max_tokens temperature top_p repetition_penalty
      polls = some r) :
    (∃ p m, r = (some p, m)) ∨ (r.1 = none ∧ r.2 ≠ "") := by
  rw [FinalWorking.generate_speech_with_voice] at h
  cases hpre : FinalWorking.generate_speech_with_voice_pre model_loaded device
      text language voice_style max_tokens temperature top_p repetition_penalty with
  | error r0 =>
    rw [hpre] at h
    simp at h
    subst h
    unfold FinalWorking.generate_speech_with_voice_pre at hpre
    split at hpre
    · simp at hpre
      exact Or.inr ⟨by rw [← hpre], by rw [← hpre]; decide⟩
    · split at hpre
      · simp at hpre
        exact Or.inr ⟨by rw [← hpre], by rw [← hpre]; decide⟩
      · simp at hpre
  | ok req =>
    rw [hpre] at h
    cases hl : FinalWorking.recv_loop [] polls with
    | none => rw [hl] at h; simp at h
    | some e =>
      rw [hl] at h
      rcases finalWorking_recv_loop_cases polls [] e hl with ⟨toks, rfl⟩ | rfl | ⟨m, rfl⟩
      · simp at h
        by_cases h0 : toks = []
        · rw [if_pos h0] at h
          have hr := Option.some.inj h
          exact Or.inr ⟨by rw [← hr], by rw [← hr]; decide⟩
        · rw [if_neg h0] at h
          have hr := Option.some.inj h
          exact Or.inl ⟨_, _, hr.symm⟩
      · simp at h
        exact Or.inr ⟨by rw [← h], by rw [← h]; decide⟩
      · simp at h
        refine Or.inr ⟨by rw [← h], ?_⟩
        rw [← h]
        exact append_ne_empty "❌ Generation failed: " m (by decide)

/-- Every completed run of `generate_speech` returns a payload or a failure
with a nonempty message. -/
theorem simpleWorking_generate_outcome_shape (model_loaded : Bool)
    (device uuid text language : String) (max_tokens : Int)
    (temperature top_p repetition_penalty : Rat)
    (polls : List SimpleWorking.Poll) (r : Option String × String)
    (h : SimpleWorking.generate_speech model_loaded device uuid text language
      max_tokens temperature top_p repetition_penalty polls = some r) :
    (∃ p m, r = (some p, m)) ∨ (r.1 = none ∧ r.2 ≠ "") := by
  rw [SimpleWorking.generate_speech] at h
  cases hpre : SimpleWorking.generate_speech_pre model_loaded device text
      language max_tokens temperature top_p repetition_penalty with
  | error r0 =>
    rw [hpre] at h
    simp at h
    subst h
    unfold SimpleWorking.generate_speech_pre at hpre
    split at hpre
    · simp at hpre
      exact Or.inr ⟨by rw [← hpre], by rw [← hpre]; decide⟩
    · split at hpre
      · simp at hpre
        exact Or.inr ⟨by rw [← hpre], by rw [← hpre]; decide⟩
      · simp at hpre
  | ok req =>
    rw [hpre] at h
    cases hl : SimpleWorking.recv_loop [] polls with
    | none => rw [hl] at h; simp at h
    | some e =>
      rw [hl] at h
      rcases simpleWorking_recv_loop_cases polls [] e hl with ⟨toks, rfl⟩ | rfl | ⟨m, rfl⟩
      · simp at h
        by_cases h0 : toks = []
        · rw [if_pos h0] at h
          have hr := Option.some.inj h
          exact Or.inr ⟨by rw [← hr], by rw [← hr]; decide⟩
        · rw [if_neg h0] at h
          have hr := Option.some.inj h
          exact Or.inl ⟨_, _, hr.symm⟩
      · simp at h
        exact Or.inr ⟨by rw [← h], by rw [← h]; decide⟩
      · simp at h
        refine Or.inr ⟨by rw [← h], ?_⟩
        rw [← h]
        exact append_ne_empty "❌ Generation failed: " m (by decide)

/-- Every completed run of `generate_tts_audio` returns a payload or a
failure with a nonempty message. -/
theorem fixedTTS_generate_outcome_shape (model_loaded : Bool)
    (uuid text language voice_mode builtin_voice : String)
    (reference_audio : Option String) (reference_text : String)
    (max_tokens : Int) (temperature top_p repetition_penalty : Rat)
    (polls : List FixedTTS.Poll) (r : Option String × String)
    (h : FixedTTS.generate_tts_audio model_loaded uuid text language voice_mode
      builtin_voice reference_audio reference_text max_tokens temperature
      top_p repetition_penalty polls = some r) :
    (∃ p m, r = (some p, m)) ∨ (r.1 = none ∧ r.2 ≠ "") := by
  rw [FixedTTS.generate_tts_audio] at h
  cases hpre : FixedTTS.generate_tts_audio_pre model_loaded text language
      voice_mode builtin_voice reference_audio reference_text max_tokens
      temperature top_p repetition_penalty with
  | error r0 =>
    rw [hpre] at h
    simp at h
    subst h
    unfold FixedTTS.generate_tts_audio_pre at hpre
    split at hpre
    · simp at hpre
      exact Or.inr ⟨by rw [← hpre], by rw [← hpre]; decide⟩
    · split at hpre
      · simp at hpre
        exact Or.inr ⟨by rw [← hpre], by rw [← hpre]; decide⟩
      · simp at hpre
  | ok req =>
    rw [hpre] at h
    cases hl : FixedTTS.recv_loop [] polls with
    | none => rw [hl] at h; simp at h
    | some e =>
      rw [hl] at h
      rcases fixedTTS_recv_loop_cases polls [] e hl with ⟨toks, rfl⟩ | rfl | ⟨m, rfl⟩
      · simp at h
        by_cases h0 : toks = []
        · rw [if_pos h0] at h
          have hr := Option.some.inj h
          exact Or.inr ⟨by rw [← hr], by rw [← hr]; decide⟩
        · rw [if_neg h0] at h
          have hr := Option.some.inj h
          exact Or.inl ⟨_, _, hr.symm⟩
      · simp at h
        exact Or.inr ⟨by rw [← h], by rw [← h]; decide⟩
      · simp at h
        refine Or.inr ⟨by rw [← h], ?_⟩
        rw [← h]
        exact append_ne_empty "❌ Generation failed: " m (by decide)

/-- Unfolding of `call_tts` when both reference arguments are present. -/
theorem call_tts_eq_some_some (provider : TTSRequestOut → HTTPResp)
    (api_key text model : String) (speed : Rat) (voice_id : Option String)
    (a t : String) :
    call_tts provider api_key text model speed voice_id (some a) (some t) =
      if api_key.isEmpty then ((none, "Missing API key"), [])
      else if isBlank text then ((none, "Enter text"), [])
      else if a.isEmpty || t.isEmpty then
        call_tts_plain provider text model speed voice_id
      else call_tts_cloning provider text model speed voice_id a t := by
  rw [call_tts]

/-- Every `call_tts` call returns audio with an empty message or no audio
with a nonempty message. -/
theorem call_tts_outcome_shape (provider : TTSRequestOut → HTTPResp)
    (api_key text model : String) (speed : Rat)
    (voice_id ref_audio_b64 ref_text : Option String) :
    (∃ c, (call_tts provider api_key text model speed voice_id ref_audio_b64 ref_text).1 = (some c, ""))
    ∨ (∃ m, (call_tts provider api_key text model speed voice_id ref_audio_b64 ref_text).1 = (none, m) ∧ m ≠ "") := by
  have hplain : (∃ c, (call_tts_plain provider text model speed voice_id).1 = (some c, ""))
      ∨ ∃ m, (call_tts_plain provider text model speed voice_id).1 = (none, m) ∧ m ≠ "" := by
    simp only [call_tts_plain]
    exact finishResp_outcome _ _
  have hclone : ∀ a t,
      (∃ c, (call_tts_cloning provider text model speed voice_id a t).1 = (some c, ""))
      ∨ ∃ m, (call_tts_cloning provider text model speed voice_id a t).1 = (none, m) ∧ m ≠ "" := by
    intro a t
    simp only [call_tts_cloning]
    split
    · exact finishResp_outcome _ _
    · split
      · exact finishResp_outcome _ _
      · exact finishResp_outcome _ _
  cases ref_audio_b64 with
  | none =>
    cases ref_text with
    | none =>
      rw [call_tts]
      · split
        · exact Or.inr ⟨"Missing API key", rfl, by decide⟩
        · split
          · exact Or.inr ⟨"Enter text", rfl, by decide⟩
          · exact hplain
      · intro x y h1 h2
        simp at h1
    | some t =>
      rw [call_tts]
      · split
        · exact Or.inr ⟨"Missing API key", rfl, by decide⟩
        · split
          · exact Or.inr ⟨"Enter text", rfl, by decide⟩
          · exact hplain
      · intro x y h1 h2
        simp at h1
  | some a =>
    cases ref_text with
    | none =>
      rw [call_tts]
      · split
        · exact Or.inr ⟨"Missing API key", rfl, by decide⟩
        · split
          · exact Or.inr ⟨"Enter text", rfl, by decide⟩
          · exact hplain
      · intro x y h1 h2
        simp at h2
    | some t =>
      rw [call_tts_eq_some_some]
      split
      · exact Or.inr ⟨"Missing API key", rfl, by decide⟩
      · split
        · exact Or.inr ⟨"Enter text", rfl, by decide⟩
        · split
          · exact hplain
          · exact hclone a t

/-- C9: every completed run of each caller-side generation function —
`generate_speech_with_voice`, `generate_speech`, `generate_tts_audio` and the
External TTS Client `call_tts` — returns either a success result carrying a
payload or a failure result carrying a nonempty message; the poll timeout and
worker error events are consumed inside the functions and surface only as
such failure values, never as an escaping exception. -/
theorem c9_every_run_returns_payload_or_typed_failure :
    (∀ model_loaded device uuid text language voice_style max_tokens
        temperature top_p repetition_penalty polls r,
      FinalWorking.generate_speech_with_voice model_loaded device uuid text
        language voice_style max_tokens temperature top_p repetition_penalty
        polls = some r →
      (∃ p m, r = (some p, m)) ∨ (r.1 = none ∧ r.2 ≠ ""))
    ∧ (∀ model_loaded device uuid text language max_tokens temperature top_p
        repetition_penalty polls r,
      SimpleWorking.generate_speech model_loaded device uuid text language
        max_tokens temperature top_p repetition_penalty polls = some r →
      (∃ p m, r = (some p, m)) ∨ (r.1 = none ∧ r.2 ≠ ""))
    ∧ (∀ model_loaded uuid text language voice_mode builtin_voice
        reference_audio reference_text max_tokens temperature top_p
        repetition_penalty polls r,
      FixedTTS.generate_tts_audio model_loaded uuid text language voice_mode
        builtin_voice reference_audio reference_text max_tokens temperature
        top_p repetition_penalty polls = some r →
      (∃ p m, r = (some p, m)) ∨ (r.1 = none ∧ r.2 ≠ ""))
    ∧ (∀ provider api_key text model speed voice_id ref_audio_b64 ref_text,
      (∃ c, (call_tts provider api_key text model speed voice_id ref_audio_b64
        ref_text).1 = (some c, ""))
      ∨ (∃ m, (call_tts provider api_key text model speed voice_id ref_audio_b64
        ref_text).1 = (none, m) ∧ m ≠ "")) :=
  ⟨fun _ _ _ _ _ _ _ _ _ _ _ r h =>
      finalWorking_generate_outcome_shape _ _ _ _ _ _ _ _ _ _ _ r h,
   fun _ _ _ _ _ _ _ _ _ _ r h =>
      simpleWorking_generate_outcome_shape _ _ _ _ _ _ _ _ _ _ r h,
   fun _ _ _ _ _ _ _ _ _ _ _ _ _ r h =>
      fixedTTS_generate_outcome_shape _ _ _ _ _ _ _ _ _ _ _ _ _ r h,
   fun p k te mo sp vi ra rt => call_tts_outcome_shape p k te mo sp vi ra rt⟩

/-- Witness for C9 at a concrete input: a timed-out run yields a typed
failure with a nonempty message. -/
theorem c9_witness :
    FinalWorking.generate_speech_with_voice true "cpu" "abcd1234" "Hello"
      "🌍 Auto-detect" "🎭 Neutral" 512 (7/10) (7/10) (3/2)
      [FinalWorking.Poll.timeout] = some (none, FinalWorking.timeout_msg) ∧
    ((∃ p m, ((none, FinalWorking.timeout_msg) : Option String × String) = (some p, m))
      ∨ (((none, FinalWorking.timeout_msg) : Option String × String).1 = none
          ∧ ((none, FinalWorking.timeout_msg) : Option String × String).2 ≠ "")) :=
  ⟨rfl,
    c9_every_run_returns_payload_or_typed_failure.1 true "cpu" "abcd1234"
      "Hello" "🌍 Auto-detect" "🎭 Neutral" 512 (7/10) (7/10) (3/2)
      [FinalWorking.Poll.timeout] (none, FinalWorking.timeout_msg) rfl⟩

/-- C10: a reference audio upload larger than 10 * 1024 * 1024 bytes is
rejected before any TTS request is built or sent (the `ui()` Reference-tape
path returns the size error with an empty request list), a file at or below
the limit passes the size gate and proceeds to `call_tts`, and
`validate_audio_file` in `streamlit_fish_speech.py` applies the same strict
10 MB bound to files of an accepted type. -/
theorem c10_reference_audio_size_limit (provider : TTSRequestOut → HTTPResp)
    (api_key model : String) (speed : Rat) (text refData refText : String)
    (f : UploadedFile) :
    (refData.length > 10 * 1024 * 1024 →
      ui_reference_generate provider api_key model speed text refData refText =
        ((none, "Audio too large (max 10MB)"), []))
    ∧ (refData.length ≤ 10 * 1024 * 1024 →
      ui_reference_generate provider api_key model speed text refData refText =
        call_tts provider api_key text model speed none (some (to_b64 refData))
          (some refText))
    ∧ (valid_types.contains f.type = true → f.size > max_size →
      validate_audio_file (some f) =
        (false, "Audio file is too large. Please select a file smaller than 10MB"))
    ∧ (valid_types.contains f.type = true → f.size ≤ max_size →
      validate_audio_file (some f) = (true, "")) := by
  refine ⟨?_, ?_, ?_, ?_⟩
  · intro h
    rw [ui_reference_generate, if_pos h]
  · intro h
    rw [ui_reference_generate, if_neg (by omega)]
  · intro hty hsz
    rw [validate_audio_file, if_neg (by simp only [hty]; decide), if_pos hsz]
  · intro hty hsz
    rw [validate_audio_file, if_neg (by simp only [hty]; decide), if_neg (by omega)]

/-- A reference upload one byte over the 10 MB limit, for the concrete C10
run. -/
def oversizedData : String := ⟨List.replicate (10 * 1024 * 1024 + 1) 'a'⟩

/-- Witness for C10 at concrete inputs: an oversized upload is rejected with
no request made, and `validate_audio_file` rejects an oversized WAV file. -/
theorem c10_witness :
    ui_reference_generate providerAlwaysFail "key" "speech-1.5" 1 "Hello"
      oversizedData "REF" = ((none, "Audio too large (max 10MB)"), [])
    ∧ validate_audio_file (some ⟨"audio/wav", 10 * 1024 * 1024 + 1⟩) =
        (false, "Audio file is too large. Please select a file smaller than 10MB")
    ∧ validate_audio_file (some ⟨"audio/wav", 10 * 1024 * 1024⟩) = (true, "") := by
  have hlen : oversizedData.length = 10 * 1024 * 1024 + 1 := by
    show (List.replicate (10 * 1024 * 1024 + 1) 'a').length = 10 * 1024 * 1024 + 1
    exact List.length_replicate _ _
  have h := c10_reference_audio_size_limit providerAlwaysFail "key" "speech-1.5"
    1 "Hello" oversizedData "REF" ⟨"audio/wav", 10 * 1024 * 1024 + 1⟩
  refine ⟨h.1 (by omega), h.2.2.1 (by decide) (by decide), ?_⟩
  have h2 := c10_reference_audio_size_limit providerAlwaysFail "key" "speech-1.5"
    1 "Hello" oversizedData "REF" ⟨"audio/wav", 10 * 1024 * 1024⟩
  exact h2.2.2.2 (by decide) (by decide)
